import Mathlib

/-!
# Verification of the Swissy order-management backend (shallow embedding)

This development embeds the route handlers of the Express/Mongoose backend
(`src/routes/orders.js`, `src/routes/invoiceRoutes.js`, the consolidated
invoice router, and the Mongoose `Order` schema) as pure Lean functions over
explicit state, and proves the testable properties of the specification
against them.

Modelling conventions:
- Mongo ObjectIds are `Nat`; the schema field `_id` is embedded as `oid`
  (orders), `uid` (users), `invId` (invoices).
- `Date` values are `Nat` timestamps supplied by the caller.
- A JS string is truthy iff it is nonempty; an absent request field is `none`.
- `order.save()` runs Mongoose validation; of the schema validators, the one
  that can fire on the routes modelled here is the `status` enum check (a
  legacy document may carry a status outside the enum), so `save` is embedded
  as failing exactly when the document status is outside the enum.  Handlers
  propagate that failure the way the JS `try`/`catch` structure does.
- Each handler returns its HTTP status code, the persisted state, and the
  list of `Notification` documents it created.
-/

namespace Swissy

/-- File descriptor stored on an order (`fileSchema`). -/
structure FileMeta where
  url : String
  filename : String
  size : Nat
  mimetype : String
  deriving Repr, DecidableEq

/-- Billable line (`itemSchema`). -/
structure Item where
  description : String
  quantity : Nat
  price : Nat
  deriving Repr, DecidableEq

/-- Admin-visible sample/revision image appended to `order.sampleImages`. -/
structure SampleImage where
  url : String
  filename : String
  uploadedAt : Nat
  imgType : String
  comments : String
  deriving Repr, DecidableEq

/-- File staged inside `employeePendingWork.pendingFiles`. -/
structure PendingFile where
  url : String
  filename : String
  uploadedAt : Nat
  comments : String
  deriving Repr, DecidableEq

/-- The `customSizes` sub-document of the order schema. -/
structure CustomSizes where
  length : Nat
  width : Nat
  unit : String
  deriving Repr, DecidableEq

/-- The `employeePendingWork` embedded struct of the order schema. -/
structure EmployeePendingWork where
  hasPendingWork : Bool
  pendingStatus : String
  pendingFiles : List PendingFile
  pendingReport : String
  submittedAt : Option Nat
  submittedBy : Option Nat
  rejectionReason : String
  wasRejected : Bool
  deriving Repr, DecidableEq

/-- The Mongoose `Order` document (`orderSchema`). -/
structure Order where
  oid : Nat
  orderNumber : String
  customerId : Nat
  orderType : String
  designName : Option String
  fileFormat : Option String
  otherInstructions : String
  patchDesignName : Option String
  patchStyle : Option String
  patchAmount : Option Nat
  patchUnit : Option String
  patchLength : Option Nat
  patchWidth : Option Nat
  patchBackingStyle : Option String
  patchQuantity : Option Nat
  patchAddress : Option String
  trackingNumber : String
  PlacementofDesign : Option String
  CustomMeasurements : Option String
  length : Nat
  width : Nat
  unit : String
  customSizes : CustomSizes
  items : List Item
  files : List FileMeta
  status : String
  customerApprovalStatus : String
  sampleImages : List SampleImage
  parentOrderId : Option Nat
  isRevision : Bool
  revisionNumber : Nat
  revisionReason : String
  totalAmount : Nat
  notes : String
  rejectedReason : String
  assignedTo : Option Nat
  requiredEmployeeRole : String
  report : String
  completedCount : Nat
  employeePendingWork : EmployeePendingWork
  invoiceId : Option Nat
  hasInvoice : Bool
  invoiceStatus : String
  deriving Repr, DecidableEq

/-- A `User` document restricted to the fields the order routes touch. -/
structure User where
  uid : Nat
  role : String
  employeeRole : Option String
  assignedOrders : List Nat
  deriving Repr, DecidableEq

/-- A `Notification` document (`Notification.create` payload). -/
structure Notification where
  userId : Nat
  orderId : Option Nat
  ntype : String
  title : String
  message : String
  deriving Repr, DecidableEq

/-- The authenticated actor attached by the `protect` middleware. -/
structure Actor where
  uid : Nat
  role : String
  deriving Repr, DecidableEq

/-- The `status` enum of the order schema. -/
def validStatuses : List String :=
  ["In Progress", "Waiting for Approval", "Design Approved", "In Revision",
   "Manufacturing", "Revision Ready", "Revision Approved", "Completed",
   "Rejected", "Cancelled", "Superseded"]

/-- Mongoose full-document validation on `order.save()` / `Order.create`,
restricted to the status enum (the only schema check the modelled routes can
trip; see the file header). -/
def orderSaveOk (o : Order) : Bool :=
  o.status ∈ validStatuses

/-- JS truthiness of an optional string field (`undefined` and `''` are falsy). -/
def truthy : Option String → Bool
  | some s => s ≠ ""
  | none => false

/-- The JS idiom `v || d` on an optional string field. -/
def jsOrStr (v : Option String) (d : String) : String :=
  match v with
  | some s => if s = "" then d else s
  | none => d

/-- Schema defaults of `orderSchema`: the document `Order.create` builds
before any explicitly supplied field is applied. -/
def schemaDefaultOrder : Order where
  oid := 0
  orderNumber := ""
  customerId := 0
  orderType := ""
  designName := none
  fileFormat := none
  otherInstructions := ""
  patchDesignName := none
  patchStyle := none
  patchAmount := none
  patchUnit := none
  patchLength := none
  patchWidth := none
  patchBackingStyle := none
  patchQuantity := none
  patchAddress := none
  trackingNumber := ""
  PlacementofDesign := none
  CustomMeasurements := none
  length := 0
  width := 0
  unit := "inches"
  customSizes := ⟨0, 0, "inches"⟩
  items := []
  files := []
  status := "In Progress"
  customerApprovalStatus := "pending"
  sampleImages := []
  parentOrderId := none
  isRevision := false
  revisionNumber := 0
  revisionReason := ""
  totalAmount := 0
  notes := ""
  rejectedReason := ""
  assignedTo := none
  requiredEmployeeRole := ""
  report := ""
  completedCount := 0
  employeePendingWork := ⟨false, "", [], "", none, none, "", false⟩
  invoiceId := none
  hasInvoice := false
  invoiceStatus := "pending"

/-! ## PUT /:id — update order (orders.js lines 723–810) -/

/-- Body of a `PUT /orders/:id` request.  `orderType` is carried to show the
handler never reads it (the destructuring on line 730 drops it). -/
structure UpdateReq where
  status : Option String
  rejectedReason : Option String
  report : Option String
  trackingNumber : Option String
  notes : Option String
  orderType : Option String
  deriving Repr, DecidableEq

/-- Outcome of the update handler: HTTP code, persisted order, notifications
created during the request. -/
structure UpdateResult where
  statusCode : Nat
  order : Order
  notifs : List Notification
  deriving Repr, DecidableEq

/-- The status-changed notification of orders.js lines 742–748. -/
def mkStatusChangedNotif (o : Order) : Notification where
  userId := o.customerId
  orderId := some o.oid
  ntype := "order_status_changed"
  title := "Order " ++ o.orderNumber ++ " Updated"
  message := "Your order status has been updated to " ++ o.status ++ "."

/-- The tracking-number notification of orders.js lines 778–784. -/
def mkTrackingNotif (o : Order) (trackingNumber : String) : Notification where
  userId := o.customerId
  orderId := some o.oid
  ntype := "tracking_number_added"
  title := "🚚 Tracking Number Added"
  message := "Your order " ++ o.orderNumber ++ " has been shipped! Tracking number: "
    ++ trackingNumber

/-- Handler for `PUT /:id` (orders.js lines 723–810).  Admin or the assigned employee may
set status / rejectedReason / report / trackingNumber; the owning customer may
update notes; anyone else gets 403.  A status-changed notification is created
only when a truthy status differing from the previous one was supplied; a
tracking notification only when a truthy tracking number changed on a patches
order. -/
def updateOrder (actor : Actor) (order : Order) (req : UpdateReq) : UpdateResult :=
  if actor.role = "admin" ∨ (actor.role = "employee" ∧ order.assignedTo = some actor.uid) then
    let previousStatus := order.status
    let previousTrackingNumber := order.trackingNumber
    let o1 : Order :=
      { order with
        status := if truthy req.status then req.status.getD order.status else order.status
        rejectedReason :=
          if truthy req.rejectedReason then req.rejectedReason.getD order.rejectedReason
          else order.rejectedReason
        report := if truthy req.report then req.report.getD order.report else order.report
        trackingNumber := req.trackingNumber.getD order.trackingNumber }
    if orderSaveOk o1 then
      let statusNotifs :=
        if truthy req.status ∧ req.status ≠ some previousStatus then [mkStatusChangedNotif o1]
        else []
      let trackingNotifs :=
        if truthy req.trackingNumber ∧ req.trackingNumber ≠ some previousTrackingNumber
            ∧ o1.orderType = "patches" then
          [mkTrackingNotif o1 (req.trackingNumber.getD "")]
        else []
      { statusCode := 200, order := o1, notifs := statusNotifs ++ trackingNotifs }
    else
      { statusCode := 500, order := order, notifs := [] }
  else if order.customerId = actor.uid then
    let o1 : Order :=
      { order with notes := if truthy req.notes then req.notes.getD order.notes else order.notes }
    if orderSaveOk o1 then { statusCode := 200, order := o1, notifs := [] }
    else { statusCode := 500, order := order, notifs := [] }
  else
    { statusCode := 403, order := order, notifs := [] }

/-! ## POST /:id/employee-submit (orders.js lines 1178–1239) -/

/-- Body of an employee-submit request. -/
structure SubmitReq where
  pendingStatus : Option String
  pendingFiles : Option (List PendingFile)
  pendingReport : Option String
  comments : Option String
  deriving Repr, DecidableEq

/-- Outcome of a handler that touches one order. -/
structure OrderResult where
  statusCode : Nat
  order : Order
  notifs : List Notification
  deriving Repr, DecidableEq

/-- The admin alert of orders.js lines 1213–1219. -/
def mkWorkPendingNotif (adminId : Nat) (o : Order) : Notification where
  userId := adminId
  orderId := some o.oid
  ntype := "employee_work_pending"
  title := "📋 Employee Work Pending Approval"
  message := "Work was submitted for order " ++ o.orderNumber ++ ". Please review."

/-- Handler for `POST /:id/employee-submit`: the assigned employee stages work into
`employeePendingWork`; the customer-visible fields are not written.  Every
admin gets an `employee_work_pending` notification. -/
def employeeSubmit (actor : Actor) (order : Order) (req : SubmitReq) (now : Nat)
    (adminIds : List Nat) : OrderResult :=
  if actor.role ≠ "employee" then
    { statusCode := 403, order := order, notifs := [] }
  else if order.assignedTo ≠ some actor.uid then
    { statusCode := 403, order := order, notifs := [] }
  else
    let o1 : Order :=
      { order with
        employeePendingWork :=
          { hasPendingWork := true
            pendingStatus := jsOrStr req.pendingStatus "Waiting for Approval"
            pendingFiles := req.pendingFiles.getD []
            pendingReport := jsOrStr req.pendingReport (jsOrStr req.comments "")
            submittedAt := some now
            submittedBy := some actor.uid
            rejectionReason := ""
            wasRejected := false } }
    if orderSaveOk o1 then
      { statusCode := 200, order := o1
        notifs := adminIds.map (fun a => mkWorkPendingNotif a o1) }
    else
      { statusCode := 500, order := order, notifs := [] }

/-! ## POST /:id/admin-reject-work (orders.js lines 1334–1386) -/

/-- The employee rejection notification of orders.js lines 1368–1374. -/
def mkWorkRejectedNotif (empId : Nat) (o : Order) (reason : String) : Notification where
  userId := empId
  orderId := some o.oid
  ntype := "work_rejected"
  title := "❌ Work Rejected"
  message := "Your work for order " ++ o.orderNumber ++ " was rejected. Reason: " ++ reason

/-- Handler for `POST /:id/admin-reject-work`: clears `hasPendingWork` while keeping the
pending files / status / report, records the rejection reason and
`wasRejected`, and notifies only the submitting employee. -/
def adminRejectWork (actor : Actor) (order : Order) (rejectionReason : Option String) :
    OrderResult :=
  if actor.role ≠ "admin" then
    { statusCode := 403, order := order, notifs := [] }
  else if ¬ order.employeePendingWork.hasPendingWork then
    { statusCode := 400, order := order, notifs := [] }
  else
    let reason := jsOrStr rejectionReason "Work needs revision"
    let submittedBy := order.employeePendingWork.submittedBy
    let o1 : Order :=
      { order with
        employeePendingWork :=
          { hasPendingWork := false
            pendingStatus := order.employeePendingWork.pendingStatus
            pendingFiles := order.employeePendingWork.pendingFiles
            pendingReport := order.employeePendingWork.pendingReport
            submittedAt := order.employeePendingWork.submittedAt
            submittedBy := submittedBy
            rejectionReason := reason
            wasRejected := true } }
    if orderSaveOk o1 then
      { statusCode := 200, order := o1
        notifs :=
          match submittedBy with
          | some emp => [mkWorkRejectedNotif emp o1 reason]
          | none => [] }
    else
      { statusCode := 500, order := order, notifs := [] }

/-! ## POST /:id/create-revision (orders.js lines 1073–1173) -/

/-- Outcome of the create-revision handler: code, parent order as persisted,
and the newly created revision order. -/
structure RevisionResult where
  statusCode : Nat
  parentAfter : Option Order
  revision : Option Order
  deriving Repr, DecidableEq

/-- The revision order document built on orders.js lines 1088–1127: explicit
copies of the parent's type-specific fields, files and items over the schema
defaults of `Order.create` (fresh `_id` / `orderNumber` are generated by the
store and are taken as arguments here). -/
def mkRevisionOrder (parent : Order) (comments : Option String)
    (priorRevisionCount : Nat) (newId : Nat) (newOrderNumber : String) : Order :=
  { schemaDefaultOrder with
    oid := newId
    orderNumber := newOrderNumber
    customerId := parent.customerId
    orderType := parent.orderType
    status := "In Progress"
    designName := parent.designName
    fileFormat := parent.fileFormat
    otherInstructions := parent.otherInstructions
    patchDesignName := parent.patchDesignName
    patchStyle := parent.patchStyle
    patchAmount := parent.patchAmount
    patchUnit := parent.patchUnit
    patchLength := parent.patchLength
    patchWidth := parent.patchWidth
    patchBackingStyle := parent.patchBackingStyle
    patchQuantity := parent.patchQuantity
    patchAddress := parent.patchAddress
    PlacementofDesign := parent.PlacementofDesign
    CustomMeasurements := parent.CustomMeasurements
    length := parent.length
    width := parent.width
    unit := parent.unit
    customSizes := parent.customSizes
    files := parent.files
    items := parent.items
    parentOrderId := some parent.oid
    isRevision := true
    revisionNumber := priorRevisionCount + 1
    revisionReason := jsOrStr comments "Customer requested revision"
    requiredEmployeeRole := parent.orderType
    notes := "Revision " ++ toString (priorRevisionCount + 1) ++ " of order "
      ++ parent.orderNumber ++ ". Reason: " ++ jsOrStr comments "Not specified" }

/-- Handler for `POST /:id/create-revision`: the owning customer forks a completed order.
The number of prior revisions is the count of orders in the store whose
`parentOrderId` is the parent; the parent is then saved as `Superseded`. -/
def createRevision (actor : Actor) (db : List Order) (parentId : Nat)
    (comments : Option String) (newId : Nat) (newOrderNumber : String) : RevisionResult :=
  match db.find? (fun o => o.oid == parentId) with
  | none => { statusCode := 404, parentAfter := none, revision := none }
  | some parent =>
    if parent.customerId ≠ actor.uid then
      { statusCode := 403, parentAfter := none, revision := none }
    else
      let priorRevisionCount :=
        (db.filter (fun o => o.parentOrderId == some parent.oid)).length
      let rev := mkRevisionOrder parent comments priorRevisionCount newId newOrderNumber
      { statusCode := 201
        parentAfter := some { parent with status := "Superseded" }
        revision := some rev }

/-! ## GET /:id/pdf and DELETE /:id (orders.js lines 343–369 and 871–902) -/

/-- Handler for `GET /:id/pdf` (orders.js lines 343–369).  It runs behind
`protect` only: it looks the order up and streams the PDF with no role or
ownership check of any kind. -/
def pdfDownload (actor : Actor) (order : Option Order) : Nat :=
  match order with
  | none => 404
  | some _ => 200

/-- Outcome of the delete handler over the order and user stores. -/
structure DeleteResult where
  statusCode : Nat
  orders : List Order
  users : List User
  deriving Repr, DecidableEq

/-- Handler for `DELETE /:id` (orders.js lines 871–902): admin or the owning customer
only; detaches the order from the assignee's `assignedOrders` and removes it
from the store. -/
def deleteOrder (actor : Actor) (orders : List Order) (users : List User)
    (orderId : Nat) : DeleteResult :=
  match orders.find? (fun o => o.oid == orderId) with
  | none => { statusCode := 404, orders := orders, users := users }
  | some order =>
    if actor.role ≠ "admin" ∧ order.customerId ≠ actor.uid then
      { statusCode := 403, orders := orders, users := users }
    else
      let users1 :=
        match order.assignedTo with
        | some emp =>
          users.map (fun u =>
            if u.uid = emp then
              { u with assignedOrders := u.assignedOrders.filter (fun x => x != order.oid) }
            else u)
        | none => users
      { statusCode := 200
        orders := orders.filter (fun o => o.oid != order.oid)
        users := users1 }

/-! ## PATCH /assign/:id (orders.js lines 561–610) -/

/-- Lookup `User.findById`, keyed on `uid`. -/
def findUser (users : List User) (uid : Nat) : Option User :=
  users.find? (fun u => u.uid == uid)

/-- The update `$pull: { assignedOrders: orderId }`. -/
def pullAssigned (orderId : Nat) (u : User) : User :=
  { u with assignedOrders := u.assignedOrders.filter (fun x => x != orderId) }

/-- The update `$addToSet: { assignedOrders: orderId }`. -/
def addToSetAssigned (orderId : Nat) (u : User) : User :=
  if orderId ∈ u.assignedOrders then u
  else { u with assignedOrders := u.assignedOrders ++ [orderId] }

/-- The back-reference bookkeeping of a single assignment: pull the order id
from the previous assignee (when there is one and it differs from the new
assignee), then add it to the new assignee's set. -/
def applyAssign (previousAssigned : Option Nat) (employeeId orderId : Nat) (u : User) : User :=
  let u1 :=
    match previousAssigned with
    | some p => if p ≠ employeeId ∧ u.uid = p then pullAssigned orderId u else u
    | none => u
  if u1.uid = employeeId then addToSetAssigned orderId u1 else u1

/-- The assignment notification of orders.js lines 586–592. -/
def mkAssignNotif (employeeId : Nat) (o : Order) : Notification where
  userId := employeeId
  orderId := some o.oid
  ntype := "order_assigned"
  title := "Order Assigned: " ++ o.orderNumber
  message := "You have been assigned order " ++ o.orderNumber ++ "."

/-- Outcome of the assign handler. -/
structure AssignResult where
  statusCode : Nat
  orderAfter : Option Order
  orders : List Order
  users : List User
  notifs : List Notification
  deriving Repr, DecidableEq

/-- Handler for `PATCH /assign/:id`: admin only; 400 when the target user is missing or
not an employee; otherwise sets `assignedTo`, pulls the order from the
previous assignee's `assignedOrders` and adds it to the new assignee's. -/
def assignOrder (actor : Actor) (orders : List Order) (users : List User)
    (orderId employeeId : Nat) : AssignResult :=
  if actor.role ≠ "admin" then
    { statusCode := 403, orderAfter := none, orders := orders, users := users, notifs := [] }
  else
    match findUser users employeeId with
    | none =>
      { statusCode := 400, orderAfter := none, orders := orders, users := users, notifs := [] }
    | some employee =>
      if employee.role ≠ "employee" then
        { statusCode := 400, orderAfter := none, orders := orders, users := users, notifs := [] }
      else
        match orders.find? (fun o => o.oid == orderId) with
        | none =>
          { statusCode := 404, orderAfter := none, orders := orders, users := users
            notifs := [] }
        | some order =>
          let previousAssigned := order.assignedTo
          let o1 : Order := { order with assignedTo := some employeeId }
          if orderSaveOk o1 then
            let users1 := users.map (applyAssign previousAssigned employeeId order.oid)
            { statusCode := 200
              orderAfter := some o1
              orders := orders.map (fun o => if o.oid = order.oid then o1 else o)
              users := users1
              notifs := [mkAssignNotif employeeId o1] }
          else
            { statusCode := 500, orderAfter := none, orders := orders, users := users
              notifs := [] }

/-- The target-validation check of orders.js line 569
(`!employee || employee.role !== 'employee'`). -/
def validEmployeeTarget (users : List User) (employeeId : Nat) : Bool :=
  match findUser users employeeId with
  | some u => u.role == "employee"
  | none => false

/-! ## PATCH /bulk-assign (orders.js lines 615–666) -/

/-- Mutable state threaded through the bulk-assign loop. -/
structure BulkState where
  orders : List Order
  users : List User
  notifs : List Notification
  deriving Repr, DecidableEq

/-- One iteration of the bulk-assign loop (orders.js lines 629–648): pull from
the previous assignee, add to the new one, set `assignedTo` and save, then
create the notification.  The user updates run before `o.save()`, so a save
failure leaves them applied; the `Bool` reports whether the iteration threw. -/
def bulkStep (employeeId : Nat) (st : BulkState) (o : Order) : BulkState × Bool :=
  let previousAssigned := o.assignedTo
  let users1 := st.users.map (applyAssign previousAssigned employeeId o.oid)
  let o1 : Order := { o with assignedTo := some employeeId }
  if orderSaveOk o1 then
    ({ orders := st.orders.map (fun x => if x.oid = o.oid then o1 else x)
       users := users1
       notifs := st.notifs ++ [mkAssignNotif employeeId o1] }, true)
  else
    ({ st with users := users1 }, false)

/-- The bulk-assign loop.  There is no per-order `try`/`catch` in the source:
a failing iteration propagates to the route's outer catch, so the remaining
orders are not processed. -/
def bulkRun (employeeId : Nat) (st : BulkState) : List Order → BulkState × Bool
  | [] => (st, true)
  | o :: rest =>
    let (st1, ok) := bulkStep employeeId st o
    if ok then bulkRun employeeId st1 rest else (st1, false)

/-- Outcome of the bulk-assign handler; `assignedCount` is the
`assignedCount` field of the success response (absent on failure, where the
route answers 500 instead). -/
structure BulkResult where
  statusCode : Nat
  assignedCount : Option Nat
  orders : List Order
  users : List User
  notifs : List Notification
  deriving Repr, DecidableEq

/-- The query `Order.find({ _id: { $in: orderIds } })`. -/
def matchedOrders (orders : List Order) (orderIds : List Nat) : List Order :=
  orders.filter (fun o => orderIds.contains o.oid)

/-- Handler for `PATCH /bulk-assign` (orders.js lines 615–666). -/
def bulkAssign (actor : Actor) (orders : List Order) (users : List User)
    (orderIds : List Nat) (employeeId : Nat) : BulkResult :=
  if actor.role ≠ "admin" then
    { statusCode := 403, assignedCount := none, orders := orders, users := users, notifs := [] }
  else if orderIds.isEmpty then
    { statusCode := 400, assignedCount := none, orders := orders, users := users, notifs := [] }
  else if ¬ validEmployeeTarget users employeeId then
    { statusCode := 400, assignedCount := none, orders := orders, users := users, notifs := [] }
  else
    let matched := matchedOrders orders orderIds
    if matched.isEmpty then
      { statusCode := 404, assignedCount := none, orders := orders, users := users, notifs := [] }
    else
      let (st, ok) := bulkRun employeeId ⟨orders, users, []⟩ matched
      if ok then
        { statusCode := 200, assignedCount := some matched.length
          orders := st.orders, users := st.users, notifs := st.notifs }
      else
        { statusCode := 500, assignedCount := none
          orders := st.orders, users := st.users, notifs := st.notifs }

/-! ## Invoices (invoiceRoutes.js and the consolidated invoice router) -/

/-- Payment details recorded on capture (`paymentDetails`). -/
structure PaymentDetails where
  transactionId : String
  payerId : String
  payerEmail : String
  paidAt : Nat
  paymentMethod : String
  deriving Repr, DecidableEq

/-- An `Invoice` document (consolidated form: `orders` is a list of order
ids; the single-order form uses a one-element list). -/
structure Invoice where
  invId : Nat
  customerId : Nat
  orders : List Nat
  items : List Item
  subtotal : Nat
  tax : Nat
  total : Nat
  notes : String
  currency : String
  orderTotal : Nat
  generatedByAdmin : Bool
  paymentStatus : String
  paymentDetails : Option PaymentDetails
  deriving Repr, DecidableEq

/-- The provider-side view of a PayPal order returned by
`paypalClient.execute(new OrdersGetRequest(transactionId))`. -/
structure ProviderOrder where
  resultId : String
  status : String
  payerId : String
  payerEmail : String
  deriving Repr, DecidableEq

/-- Outcome of the pay handler.  `invoice` is the invoice document as
persisted by the operation: on the 500 path reached after `invoice.save()`
the document is already marked paid even though the response is an error. -/
structure PayResult where
  statusCode : Nat
  invoice : Option Invoice
  orders : List Order
  deriving Repr, DecidableEq

/-- Resolution of `.populate("orders")`: the invoice's order refs, in the
order they are stored on the invoice, resolved against the order store
(unresolvable refs drop out). -/
def populatedOrders (db : List Order) (ids : List Nat) : List Order :=
  ids.filterMap (fun oid => db.find? (fun o => o.oid == oid))

/-- The linked-order update loop of the pay route
(`for (const ord of invoice.orders) { ord.invoiceStatus = "paid"; await ord.save(); }`).
Each save runs Mongoose validation; there is no per-order `try`/`catch`, so a
failing save aborts the loop with the earlier orders already persisted.  The
`Bool` reports whether the loop ran to completion. -/
def markPaidLoop (db : List Order) : List Order → List Order × Bool
  | [] => (db, true)
  | o :: rest =>
    let o1 : Order := { o with invoiceStatus := "paid" }
    if orderSaveOk o1 then
      markPaidLoop (db.map (fun x => if x.oid = o.oid then o1 else x)) rest
    else (db, false)

/-- Handler for `POST /pay/:invoiceId` (invoiceRoutes.js lines 183–230).  The provider
is an oracle from transaction id to the authoritative PayPal order; a lookup
failure is a thrown SDK error (500).  The invoice is marked paid — and its
`paymentDetails` recorded — only when the re-queried provider status is
`COMPLETED`; otherwise 400 and no mutation.  After the invoice is persisted
paid, the linked orders are saved one by one; a failing order save throws
into the route's catch (500) with the invoice already paid and only the
earlier orders updated. -/
def payInvoice (actor : Actor) (invoices : List Invoice) (orders : List Order)
    (provider : String → Option ProviderOrder) (invoiceId : Nat)
    (transactionId : String) (now : Nat) : PayResult :=
  if actor.role ≠ "customer" then
    { statusCode := 403, invoice := none, orders := orders }
  else
    match invoices.find? (fun i => i.invId == invoiceId) with
    | none => { statusCode := 404, invoice := none, orders := orders }
    | some invoice =>
      match provider transactionId with
      | none => { statusCode := 500, invoice := some invoice, orders := orders }
      | some providerOrder =>
        if providerOrder.status ≠ "COMPLETED" then
          { statusCode := 400, invoice := some invoice, orders := orders }
        else
          let invoice1 : Invoice :=
            { invoice with
              paymentStatus := "paid"
              paymentDetails := some
                { transactionId := providerOrder.resultId
                  payerId := providerOrder.payerId
                  payerEmail := providerOrder.payerEmail
                  paidAt := now
                  paymentMethod := "PayPal" } }
          let (orders1, ok) := markPaidLoop orders (populatedOrders orders invoice.orders)
          { statusCode := if ok then 200 else 500
            invoice := some invoice1
            orders := orders1 }

/-- Outcome of the consolidated invoice-creation handler.  `invoice` is the
invoice document as persisted: `Invoice.create` runs before the linkage loop,
so on the 500 path the invoice exists even though the response is an error. -/
structure CreateInvoiceResult where
  statusCode : Nat
  invoice : Option Invoice
  orders : List Order
  deriving Repr, DecidableEq

/-- The linkage loop of the consolidated create route (part_006 lines
374–379): each matched order gets `invoiceId` / `hasInvoice` /
`invoiceStatus = "pending"` and is saved.  There is no per-order
`try`/`catch`: a failing save aborts the loop into the route's outer catch
with the earlier orders already linked.  The `Bool` reports completion. -/
def linkOrdersLoop (invId : Nat) (db : List Order) : List Order → List Order × Bool
  | [] => (db, true)
  | o :: rest =>
    let o1 : Order :=
      { o with invoiceId := some invId, hasInvoice := true, invoiceStatus := "pending" }
    if orderSaveOk o1 then
      linkOrdersLoop invId (db.map (fun x => if x.oid = o.oid then o1 else x)) rest
    else (db, false)

/-- The check `orders.every(o => o.customerId === orders[0].customerId)` on the matched
orders (part_006 lines 344–349). -/
def allSameCustomer (matched : List Order) : Bool :=
  match matched with
  | [] => true
  | first :: _ => matched.all (fun o => o.customerId == first.customerId)

/-- Handler for `POST /create`, consolidated variant (part_006 lines 330–396): admin
builds one invoice over several orders of the same customer; every referenced
order is then linked to the invoice (`invoiceId` / `hasInvoice` /
`invoiceStatus = "pending"`) by the save loop, whose failure mid-way yields a
500 with the invoice created and only the earlier orders linked. -/
def createConsolidatedInvoice (actor : Actor) (orders : List Order) (users : List User)
    (orderIds : List Nat) (items : List Item) (subtotal tax total : Nat)
    (notes : Option String) (currency : Option String) (newInvoiceId : Nat) :
    CreateInvoiceResult :=
  if actor.role ≠ "admin" then
    { statusCode := 403, invoice := none, orders := orders }
  else if orderIds.isEmpty then
    { statusCode := 400, invoice := none, orders := orders }
  else
    let matched := matchedOrders orders orderIds
    if matched.length ≠ orderIds.length then
      { statusCode := 404, invoice := none, orders := orders }
    else if ¬ allSameCustomer matched then
      { statusCode := 400, invoice := none, orders := orders }
    else
      match matched.head? with
      | none => { statusCode := 400, invoice := none, orders := orders }
      | some first =>
        match findUser users first.customerId with
        | none => { statusCode := 404, invoice := none, orders := orders }
        | some customer =>
          let invoice : Invoice :=
            { invId := newInvoiceId
              customerId := customer.uid
              orders := matched.map (fun o => o.oid)
              items := items
              subtotal := subtotal
              tax := tax
              total := total
              notes := notes.getD ""
              currency := jsOrStr currency "USD"
              orderTotal := (matched.map (fun o => o.totalAmount)).sum
              generatedByAdmin := true
              paymentStatus := "unpaid"
              paymentDetails := none }
          let (orders1, ok) := linkOrdersLoop newInvoiceId orders matched
          { statusCode := if ok then 201 else 500
            invoice := some invoice
            orders := orders1 }

/-! ## Concrete documents used by the witnesses -/

/-- A concrete vector order (fields as `Order.create` would build them). -/
def sampleOrder : Order :=
  { schemaDefaultOrder with
    oid := 10
    orderNumber := "VEC-1730000000000-0001"
    customerId := 5
    orderType := "vector"
    designName := some "Logo"
    fileFormat := some "AI"
    requiredEmployeeRole := "vector"
    items := [⟨"Logo (AI)", 1, 50⟩]
    files := [⟨"/uploads/orders/a.png", "a.png", 1024, "image/png"⟩] }

/-- A concrete admin actor. -/
def adminActor : Actor := ⟨1, "admin"⟩

/-! ## C1 — status-changed notification fires iff the status changed -/

/-- A predicate that fails on a notification counts it zero times, whether or
not the guarded singleton was emitted. -/
theorem countP_single (p : Notification → Bool) (c : Prop) [Decidable c]
    (n : Notification) (h : p n = false) :
    (if c then [n] else []).countP p = 0 := by
  split <;> simp [h]

/-- C1: on `PUT /:id` by an admin or the assigned employee supplying a valid
status `s`, exactly one `order_status_changed` notification addressed to the
order's customer is created when `s` differs from the previous status, and
none when it is equal. -/
theorem update_status_notification_iff (actor : Actor) (order : Order) (req : UpdateReq)
    (s : String)
    (hauth : actor.role = "admin" ∨ (actor.role = "employee" ∧ order.assignedTo = some actor.uid))
    (hs : req.status = some s) (hvalid : s ∈ validStatuses) :
    ((updateOrder actor order req).notifs.countP
        (fun n => n.ntype == "order_status_changed" && n.userId == order.customerId)) =
      (if s = order.status then 0 else 1) := by
  have hs' : s ≠ "" := by
    intro h
    rw [h] at hvalid
    exact absurd hvalid (by decide)
  have htr : truthy (some s) = true := by simp [truthy, hs']
  simp only [updateOrder, if_pos hauth, hs, htr, eq_self_iff_true, if_true, true_and,
    orderSaveOk, Option.getD_some, decide_eq_true_eq]
  rw [if_pos hvalid]
  by_cases heq : s = order.status
  · rw [if_neg (by simp [heq] : ¬ (some s ≠ some order.status)), if_pos heq]
    simp only [List.nil_append]
    exact countP_single _ _ _ (by simp [mkTrackingNotif])
  · rw [if_pos (by simp [heq] : (some s ≠ some order.status)), if_neg heq]
    rw [List.countP_append, countP_single _ _ _ (by simp [mkTrackingNotif])]
    simp [mkStatusChangedNotif, List.countP_cons]

/-- Witness for C1: an admin moves a concrete order from `In Progress` to
`Completed` and exactly one status-changed notification is produced. -/
theorem update_status_notification_iff_witness :
    (adminActor.role = "admin" ∨
      (adminActor.role = "employee" ∧ sampleOrder.assignedTo = some adminActor.uid))
    ∧ (UpdateReq.mk (some "Completed") none none none none none).status = some "Completed"
    ∧ "Completed" ∈ validStatuses
    ∧ ((updateOrder adminActor sampleOrder
          (UpdateReq.mk (some "Completed") none none none none none)).notifs.countP
        (fun n => n.ntype == "order_status_changed" && n.userId == sampleOrder.customerId)) =
      (if "Completed" = sampleOrder.status then 0 else 1) :=
  ⟨Or.inl rfl, rfl, by decide,
    update_status_notification_iff adminActor sampleOrder
      (UpdateReq.mk (some "Completed") none none none none none) "Completed"
      (Or.inl rfl) rfl (by decide)⟩

/-! ## C6 — orderType is never changed by the update route -/

/-- C6: `PUT /:id` never writes `orderType`: whatever the request carries
(including an `orderType` field, which the handler's destructuring drops) and
whoever the actor is, the persisted order keeps its `orderType`. -/
theorem orderType_immutable_update (actor : Actor) (order : Order) (req : UpdateReq) :
    (updateOrder actor order req).order.orderType = order.orderType := by
  simp only [updateOrder]
  repeat' split
  all_goals rfl

/-! ## C2 — employee submit stages work without touching customer-visible state -/

/-- C2: when the assigned employee submits work, the proposed status, files
and report land in `employeePendingWork` with `hasPendingWork = true`, while
the customer-visible `status` and `sampleImages` are exactly as before. -/
theorem employee_submit_frame (actor : Actor) (order : Order) (req : SubmitReq)
    (now : Nat) (adminIds : List Nat)
    (hrole : actor.role = "employee")
    (hassigned : order.assignedTo = some actor.uid)
    (hsave : orderSaveOk order = true) :
    (employeeSubmit actor order req now adminIds).statusCode = 200
    ∧ (employeeSubmit actor order req now adminIds).order.employeePendingWork =
        { hasPendingWork := true
          pendingStatus := jsOrStr req.pendingStatus "Waiting for Approval"
          pendingFiles := req.pendingFiles.getD []
          pendingReport := jsOrStr req.pendingReport (jsOrStr req.comments "")
          submittedAt := some now
          submittedBy := some actor.uid
          rejectionReason := ""
          wasRejected := false }
    ∧ (employeeSubmit actor order req now adminIds).order.status = order.status
    ∧ (employeeSubmit actor order req now adminIds).order.sampleImages = order.sampleImages := by
  have hsave' : order.status ∈ validStatuses := by simpa [orderSaveOk] using hsave
  simp [employeeSubmit, hrole, hassigned, orderSaveOk, hsave']

/-- Witness for C2 on a concrete assigned employee and order. -/
theorem employee_submit_frame_witness :
    (Actor.mk 7 "employee").role = "employee"
    ∧ ({ sampleOrder with assignedTo := some 7 } : Order).assignedTo = some (Actor.mk 7 "employee").uid
    ∧ orderSaveOk { sampleOrder with assignedTo := some 7 } = true
    ∧ (employeeSubmit (Actor.mk 7 "employee") { sampleOrder with assignedTo := some 7 }
        (SubmitReq.mk (some "Waiting for Approval")
          (some [⟨"https://cdn/x.png", "x.png", 500, "draft"⟩]) (some "done") none) 1000
        [1]).statusCode = 200 :=
  ⟨rfl, rfl, by decide,
    (employee_submit_frame (Actor.mk 7 "employee") { sampleOrder with assignedTo := some 7 }
      (SubmitReq.mk (some "Waiting for Approval")
        (some [⟨"https://cdn/x.png", "x.png", 500, "draft"⟩]) (some "done") none) 1000
      [1] rfl rfl (by decide)).1⟩

/-! ## C3 — admin rejection retains the pending work and notifies only the employee -/

/-- C3: rejecting pending work clears `hasPendingWork`, keeps the pending
files / status / report, records the reason and `wasRejected = true`, and
creates exactly one `work_rejected` notification — for the submitting
employee, whose message carries the recorded reason — and none for the
customer. -/
theorem admin_reject_work_spec (actor : Actor) (order : Order) (reason : Option String)
    (emp : Nat)
    (hrole : actor.role = "admin")
    (hpend : order.employeePendingWork.hasPendingWork = true)
    (hsub : order.employeePendingWork.submittedBy = some emp)
    (hsave : orderSaveOk order = true)
    (hne : emp ≠ order.customerId) :
    (adminRejectWork actor order reason).statusCode = 200
    ∧ (adminRejectWork actor order reason).order.employeePendingWork.hasPendingWork = false
    ∧ (adminRejectWork actor order reason).order.employeePendingWork.pendingFiles =
        order.employeePendingWork.pendingFiles
    ∧ (adminRejectWork actor order reason).order.employeePendingWork.pendingStatus =
        order.employeePendingWork.pendingStatus
    ∧ (adminRejectWork actor order reason).order.employeePendingWork.pendingReport =
        order.employeePendingWork.pendingReport
    ∧ (adminRejectWork actor order reason).order.employeePendingWork.rejectionReason =
        jsOrStr reason "Work needs revision"
    ∧ (adminRejectWork actor order reason).order.employeePendingWork.wasRejected = true
    ∧ ((adminRejectWork actor order reason).notifs.countP
        (fun n => n.ntype == "work_rejected" && n.userId == emp)) = 1
    ∧ ((adminRejectWork actor order reason).notifs.countP
        (fun n => n.userId == order.customerId)) = 0
    ∧ ∀ n ∈ (adminRejectWork actor order reason).notifs,
        ∃ p, n.message = p ++ jsOrStr reason "Work needs revision" := by
  have hsave' : order.status ∈ validStatuses := by simpa [orderSaveOk] using hsave
  simp only [adminRejectWork, hrole, hpend, hsub]
  simp [orderSaveOk, hsave', mkWorkRejectedNotif, hne, Ne.symm hne]
  exact ⟨"Your work for order " ++ order.orderNumber ++ " was rejected. Reason: ", rfl⟩

/-- A concrete order with staged pending work, used by the C3 witness. -/
def pendingWorkOrder : Order :=
  { sampleOrder with
    assignedTo := some 7
    employeePendingWork :=
      { hasPendingWork := true
        pendingStatus := "Waiting for Approval"
        pendingFiles := [⟨"https://cdn/x.png", "x.png", 500, "draft"⟩]
        pendingReport := "done"
        submittedAt := some 1000
        submittedBy := some 7
        rejectionReason := ""
        wasRejected := false } }

/-- Witness for C3: rejecting the concrete staged work with reason
"blurry image". -/
theorem admin_reject_work_spec_witness :
    adminActor.role = "admin"
    ∧ pendingWorkOrder.employeePendingWork.hasPendingWork = true
    ∧ pendingWorkOrder.employeePendingWork.submittedBy = some 7
    ∧ ((adminRejectWork adminActor pendingWorkOrder (some "blurry image")).notifs.countP
        (fun n => n.ntype == "work_rejected" && n.userId == 7)) = 1 :=
  ⟨rfl, rfl, rfl,
    (admin_reject_work_spec adminActor pendingWorkOrder (some "blurry image") 7
      rfl rfl rfl (by decide) (by decide)).2.2.2.2.2.2.2.1⟩

/-! ## C4 — creating a revision supersedes the parent and copies its data -/

/-- C4: when the owning customer creates a revision, the parent is persisted
with status `Superseded`, and the new order points back at the parent with
`isRevision = true`, `revisionNumber` one more than the number of existing
revisions of that parent, and the parent's type-specific fields, files and
items copied over. -/
theorem create_revision_spec (actor : Actor) (db : List Order) (parentId : Nat)
    (comments : Option String) (newId : Nat) (newOrderNumber : String) (parent : Order)
    (hfind : db.find? (fun o => o.oid == parentId) = some parent)
    (hown : parent.customerId = actor.uid) :
    (createRevision actor db parentId comments newId newOrderNumber).statusCode = 201
    ∧ (createRevision actor db parentId comments newId newOrderNumber).parentAfter =
        some { parent with status := "Superseded" }
    ∧ ∃ rev, (createRevision actor db parentId comments newId newOrderNumber).revision = some rev
        ∧ rev.parentOrderId = some parent.oid
        ∧ rev.isRevision = true
        ∧ rev.revisionNumber =
            (db.filter (fun o => o.parentOrderId == some parent.oid)).length + 1
        ∧ rev.customerId = parent.customerId
        ∧ rev.orderType = parent.orderType
        ∧ rev.designName = parent.designName
        ∧ rev.fileFormat = parent.fileFormat
        ∧ rev.otherInstructions = parent.otherInstructions
        ∧ rev.patchDesignName = parent.patchDesignName
        ∧ rev.patchStyle = parent.patchStyle
        ∧ rev.patchAmount = parent.patchAmount
        ∧ rev.patchUnit = parent.patchUnit
        ∧ rev.patchLength = parent.patchLength
        ∧ rev.patchWidth = parent.patchWidth
        ∧ rev.patchBackingStyle = parent.patchBackingStyle
        ∧ rev.patchQuantity = parent.patchQuantity
        ∧ rev.patchAddress = parent.patchAddress
        ∧ rev.PlacementofDesign = parent.PlacementofDesign
        ∧ rev.CustomMeasurements = parent.CustomMeasurements
        ∧ rev.length = parent.length
        ∧ rev.width = parent.width
        ∧ rev.unit = parent.unit
        ∧ rev.customSizes = parent.customSizes
        ∧ rev.files = parent.files
        ∧ rev.items = parent.items := by
  simp only [createRevision, hfind]
  rw [if_neg (by simp [hown])]
  exact ⟨rfl, rfl, mkRevisionOrder parent comments
    (db.filter (fun o => o.parentOrderId == some parent.oid)).length newId newOrderNumber,
    rfl, by simp [mkRevisionOrder, schemaDefaultOrder]⟩

/-- Witness for C4: the owning customer revises a concrete order whose store
already holds one revision of it. -/
theorem create_revision_spec_witness :
    ([sampleOrder, { sampleOrder with oid := 11, parentOrderId := some 10 }].find?
        (fun o => o.oid == 10) = some sampleOrder)
    ∧ sampleOrder.customerId = (Actor.mk 5 "customer").uid
    ∧ (createRevision (Actor.mk 5 "customer")
        [sampleOrder, { sampleOrder with oid := 11, parentOrderId := some 10 }] 10
        (some "make it red") 12 "VEC-1730000000001-0002").statusCode = 201 :=
  ⟨by decide, rfl,
    (create_revision_spec (Actor.mk 5 "customer")
      [sampleOrder, { sampleOrder with oid := 11, parentOrderId := some 10 }] 10
      (some "make it red") 12 "VEC-1730000000001-0002" sampleOrder (by decide) rfl).1⟩

/-! ## C5 — assignment keeps the assignedOrders back-reference in sync -/

/-- The bookkeeping step `applyAssign` never changes the user's id. -/
theorem applyAssign_uid (prev : Option Nat) (eid oid : Nat) (u : User) :
    (applyAssign prev eid oid u).uid = u.uid := by
  unfold applyAssign addToSetAssigned pullAssigned
  cases prev <;> dsimp only <;> (repeat' split) <;> rfl

/-- The order id is always in the set after `$addToSet`. -/
theorem mem_addToSetAssigned (oid : Nat) (u : User) :
    oid ∈ (addToSetAssigned oid u).assignedOrders := by
  unfold addToSetAssigned
  split
  · assumption
  · simp

/-- The order id is never in the set after `$pull`. -/
theorem not_mem_pullAssigned (oid : Nat) (u : User) :
    oid ∉ (pullAssigned oid u).assignedOrders := by
  unfold pullAssigned
  simp [List.mem_filter]

/-- Per-user effect of one assignment: if before the operation the user could
hold the order id only as the order's current assignee, then afterwards the
user holds the order id iff they are the new assignee. -/
theorem applyAssign_mem_iff (prev : Option Nat) (eid oid : Nat) (u : User)
    (hinv : oid ∈ u.assignedOrders → prev = some u.uid) :
    (oid ∈ (applyAssign prev eid oid u).assignedOrders ↔
      (applyAssign prev eid oid u).uid = eid) := by
  rw [applyAssign_uid]
  unfold applyAssign
  cases prev with
  | none =>
    dsimp only
    by_cases h : u.uid = eid
    · rw [if_pos h]
      simp [mem_addToSetAssigned, h]
    · rw [if_neg h]
      simp only [h, iff_false]
      intro hmem
      exact absurd (hinv hmem) (by simp)
  | some p =>
    dsimp only
    by_cases hp : p ≠ eid ∧ u.uid = p
    · rw [if_pos hp]
      have huid : (pullAssigned oid u).uid = u.uid := rfl
      rw [huid]
      have hne : ¬ u.uid = eid := by
        rw [hp.2]
        exact hp.1
      rw [if_neg hne]
      simp [hne, not_mem_pullAssigned]
    · rw [if_neg hp]
      by_cases h : u.uid = eid
      · rw [if_pos h]
        simp [mem_addToSetAssigned, h]
      · rw [if_neg h]
        simp only [h, iff_false]
        intro hmem
        have := hinv hmem
        have hpu : p = u.uid := Option.some.inj this
        exact hp ⟨by rw [hpu]; exact h, hpu.symm⟩

/-- C5: `PATCH /assign/:id` by an admin.  With an invalid target (missing
user or not an employee) the handler answers 400 and mutates nothing; with a
valid employee it answers 200, sets `assignedTo`, and afterwards a user's
`assignedOrders` contains the order id iff that user is the new assignee
(assuming the back-reference was consistent before). -/
theorem assign_order_spec (actor : Actor) (orders : List Order) (users : List User)
    (orderId employeeId : Nat) (o : Order)
    (hadmin : actor.role = "admin")
    (horder : orders.find? (fun x => x.oid == orderId) = some o)
    (hsave : orderSaveOk o = true)
    (hinv : ∀ u ∈ users, orderId ∈ u.assignedOrders → o.assignedTo = some u.uid) :
    if validEmployeeTarget users employeeId then
      (assignOrder actor orders users orderId employeeId).statusCode = 200
      ∧ (∃ o1, (assignOrder actor orders users orderId employeeId).orderAfter = some o1
          ∧ o1.assignedTo = some employeeId)
      ∧ ∀ u ∈ (assignOrder actor orders users orderId employeeId).users,
          (orderId ∈ u.assignedOrders ↔ u.uid = employeeId)
    else
      assignOrder actor orders users orderId employeeId =
        { statusCode := 400, orderAfter := none, orders := orders, users := users, notifs := [] }
    := by
  have hoid : o.oid = orderId := by
    have := List.find?_some horder
    simpa using this
  have hsave' : o.status ∈ validStatuses := by simpa [orderSaveOk] using hsave
  by_cases hv : validEmployeeTarget users employeeId
  · rw [if_pos hv]
    unfold validEmployeeTarget at hv
    rcases hemp : findUser users employeeId with _ | emp
    · rw [hemp] at hv
      simp at hv
    · rw [hemp] at hv
      simp only at hv
      have hrole : emp.role = "employee" := by simpa using hv
      simp only [assignOrder, hadmin, hemp, hrole, horder]
      simp only [ne_eq, not_true_eq_false, if_false, reduceIte]
      rw [if_pos (show orderSaveOk { o with assignedTo := some employeeId } = true by
        simpa [orderSaveOk] using hsave')]
      refine ⟨rfl, ⟨{ o with assignedTo := some employeeId }, rfl, rfl⟩, ?_⟩
      intro u hu
      rcases List.mem_map.1 hu with ⟨u0, hu0, rfl⟩
      rw [← hoid]
      exact applyAssign_mem_iff o.assignedTo employeeId o.oid u0
        (fun hm => hinv u0 hu0 (hoid ▸ hm))
  · rw [if_neg hv]
    unfold validEmployeeTarget at hv
    rcases hemp : findUser users employeeId with _ | emp
    · simp only [assignOrder, hadmin, hemp]
      simp
    · rw [hemp] at hv
      have hrole : ¬ emp.role = "employee" := by simpa using hv
      simp only [assignOrder, hadmin, hemp]
      simp [hrole]

/-- Users for the C5 witness: employee 8 currently holds order 10, employee 7
is the new assignee. -/
def assignUsersDb : List User :=
  [⟨7, "employee", some "vector", []⟩, ⟨8, "employee", some "vector", [10]⟩]

/-- Orders for the C5 witness. -/
def assignOrdersDb : List Order := [{ sampleOrder with assignedTo := some 8 }]

/-- Witness for C5: reassigning order 10 from employee 8 to employee 7. -/
theorem assign_order_spec_witness :
    adminActor.role = "admin"
    ∧ assignOrdersDb.find? (fun x => x.oid == 10) = some { sampleOrder with assignedTo := some 8 }
    ∧ orderSaveOk { sampleOrder with assignedTo := some 8 } = true
    ∧ (∀ u ∈ assignUsersDb, 10 ∈ u.assignedOrders →
        ({ sampleOrder with assignedTo := some 8 } : Order).assignedTo = some u.uid)
    ∧ (assignOrder adminActor assignOrdersDb assignUsersDb 10 7).statusCode = 200
    ∧ ∀ u ∈ (assignOrder adminActor assignOrdersDb assignUsersDb 10 7).users,
        (10 ∈ u.assignedOrders ↔ u.uid = 7) := by
  have h := assign_order_spec adminActor assignOrdersDb assignUsersDb 10 7
    { sampleOrder with assignedTo := some 8 } rfl (by decide) (by decide) (by decide)
  rw [if_pos (by decide)] at h
  exact ⟨rfl, by decide, by decide, by decide, h.1, h.2.2⟩

/-! ## C9 — bulk-assign aborts on the first failing order -/

/-- The bulk loop succeeds exactly when every matched order passes save
validation after the assignment is applied. -/
theorem bulkRun_ok (employeeId : Nat) (st : BulkState) (l : List Order) :
    (bulkRun employeeId st l).2 =
      l.all (fun o => orderSaveOk { o with assignedTo := some employeeId }) := by
  induction l generalizing st with
  | nil => rfl
  | cons o rest ih =>
    simp only [bulkRun, bulkStep, List.all_cons]
    by_cases h : orderSaveOk { o with assignedTo := some employeeId } = true
    · simp [h, ih]
    · simp [h]

/-- A successful bulk run preserves "every stored order with this id is
assigned to the employee". -/
theorem bulkRun_preserves (e oid : Nat) (st : BulkState) (l : List Order)
    (hok : (bulkRun e st l).2 = true)
    (hP : ∀ x ∈ st.orders, x.oid = oid → x.assignedTo = some e) :
    ∀ x ∈ (bulkRun e st l).1.orders, x.oid = oid → x.assignedTo = some e := by
  induction l generalizing st with
  | nil => exact hP
  | cons o rest ih =>
    by_cases h : orderSaveOk { o with assignedTo := some e } = true
    · have hstep : bulkRun e st (o :: rest) =
        bulkRun e
          ⟨st.orders.map (fun x => if x.oid = o.oid then { o with assignedTo := some e } else x),
           st.users.map (applyAssign o.assignedTo e o.oid),
           st.notifs ++ [mkAssignNotif e { o with assignedTo := some e }]⟩ rest := by
        simp [bulkRun, bulkStep, h]
      rw [hstep] at hok ⊢
      apply ih _ hok
      intro x hx hxoid
      rcases List.mem_map.1 hx with ⟨x0, hx0, rfl⟩
      by_cases hxo : x0.oid = o.oid
      · simp [hxo]
      · rw [if_neg hxo] at hxoid ⊢
        exact hP x0 hx0 hxoid
    · exfalso
      have hfail : (bulkRun e st (o :: rest)).2 = false := by
        simp [bulkRun, bulkStep, h]
      rw [hok] at hfail
      exact Bool.noConfusion hfail

/-- After a successful bulk run over a list containing an order with this id,
every stored order with this id is assigned to the employee. -/
theorem bulkRun_establishes (e oid : Nat) (st : BulkState) (l : List Order)
    (hok : (bulkRun e st l).2 = true)
    (hmem : ∃ o ∈ l, o.oid = oid) :
    ∀ x ∈ (bulkRun e st l).1.orders, x.oid = oid → x.assignedTo = some e := by
  induction l generalizing st with
  | nil =>
    rcases hmem with ⟨o, ho, _⟩
    cases ho
  | cons o rest ih =>
    by_cases h : orderSaveOk { o with assignedTo := some e } = true
    · have hstep : bulkRun e st (o :: rest) =
        bulkRun e
          ⟨st.orders.map (fun x => if x.oid = o.oid then { o with assignedTo := some e } else x),
           st.users.map (applyAssign o.assignedTo e o.oid),
           st.notifs ++ [mkAssignNotif e { o with assignedTo := some e }]⟩ rest := by
        simp [bulkRun, bulkStep, h]
      rw [hstep] at hok ⊢
      rcases hmem with ⟨o', ho', hoid⟩
      rcases List.mem_cons.1 ho' with rfl | hrest
      · apply bulkRun_preserves e oid _ rest hok
        intro x hx hxoid
        rcases List.mem_map.1 hx with ⟨x0, hx0, rfl⟩
        by_cases hxo : x0.oid = o'.oid
        · simp [hxo]
        · rw [if_neg hxo] at hxoid
          exact absurd (hxoid.trans hoid.symm) hxo
      · exact ih _ hok ⟨o', hrest, hoid⟩
    · exfalso
      have hfail : (bulkRun e st (o :: rest)).2 = false := by
        simp [bulkRun, bulkStep, h]
      rw [hok] at hfail
      exact Bool.noConfusion hfail

/-- C9 (amended): `PATCH /bulk-assign` processes the matched orders in
sequence.  When every per-order save succeeds it answers 200 with the count
of matched orders and each matched order ends assigned to the employee; when
some order's save fails the loop aborts into the route's outer catch, so the
response is 500 with no assigned count. -/
theorem bulk_assign_amended (actor : Actor) (orders : List Order) (users : List User)
    (orderIds : List Nat) (employeeId : Nat)
    (hadmin : actor.role = "admin")
    (hne : orderIds.isEmpty = false)
    (hemp : validEmployeeTarget users employeeId = true)
    (hmatch : (matchedOrders orders orderIds).isEmpty = false) :
    if (matchedOrders orders orderIds).all
        (fun o => orderSaveOk { o with assignedTo := some employeeId }) then
      (bulkAssign actor orders users orderIds employeeId).statusCode = 200
      ∧ (bulkAssign actor orders users orderIds employeeId).assignedCount =
          some (matchedOrders orders orderIds).length
      ∧ ∀ x ∈ (bulkAssign actor orders users orderIds employeeId).orders,
          (∃ o ∈ matchedOrders orders orderIds, o.oid = x.oid) →
            x.assignedTo = some employeeId
    else
      (bulkAssign actor orders users orderIds employeeId).statusCode = 500
      ∧ (bulkAssign actor orders users orderIds employeeId).assignedCount = none := by
  have hok := bulkRun_ok employeeId ⟨orders, users, []⟩ (matchedOrders orders orderIds)
  by_cases hall : (matchedOrders orders orderIds).all
      (fun o => orderSaveOk { o with assignedTo := some employeeId }) = true
  · rw [if_pos hall]
    rw [hall] at hok
    rcases hrun : bulkRun employeeId ⟨orders, users, []⟩ (matchedOrders orders orderIds)
      with ⟨st0, ok0⟩
    rw [hrun] at hok
    have hok2 : ok0 = true := hok
    have hgoal : bulkAssign actor orders users orderIds employeeId =
        { statusCode := 200, assignedCount := some (matchedOrders orders orderIds).length,
          orders := st0.orders, users := st0.users, notifs := st0.notifs } := by
      simp [bulkAssign, hadmin, hne, hemp, hmatch, hrun, hok2]
    rw [hgoal]
    refine ⟨rfl, rfl, ?_⟩
    intro x hx hex
    rcases hex with ⟨o', ho', hoo⟩
    have := bulkRun_establishes employeeId x.oid ⟨orders, users, []⟩
      (matchedOrders orders orderIds) (by rw [hrun]; exact hok2) ⟨o', ho', hoo⟩
    rw [hrun] at this
    exact this x hx rfl
  · rw [if_neg hall]
    have hallf : (matchedOrders orders orderIds).all
        (fun o => orderSaveOk { o with assignedTo := some employeeId }) = false := by
      exact Bool.eq_false_iff.2 hall
    rw [hallf] at hok
    rcases hrun : bulkRun employeeId ⟨orders, users, []⟩ (matchedOrders orders orderIds)
      with ⟨st0, ok0⟩
    rw [hrun] at hok
    have hok2 : ok0 = false := hok
    have hgoal : bulkAssign actor orders users orderIds employeeId =
        { statusCode := 500, assignedCount := none,
          orders := st0.orders, users := st0.users, notifs := st0.notifs } := by
      simp [bulkAssign, hadmin, hne, hemp, hmatch, hrun, hok2]
    rw [hgoal]
    exact ⟨rfl, rfl⟩

/-- A legacy document whose `status` predates the current schema enum; its
`save()` fails Mongoose validation. -/
def legacyStatusOrder : Order :=
  { schemaDefaultOrder with
    oid := 21
    orderNumber := "ORD-21"
    customerId := 5
    orderType := "vector"
    requiredEmployeeRole := "vector"
    status := "Pending" }

/-- Order store for the C9 counterexample: a valid order, the legacy one,
then another valid order. -/
def bulkOrdersDb : List Order :=
  [{ sampleOrder with oid := 20, orderNumber := "VEC-20" },
   legacyStatusOrder,
   { sampleOrder with oid := 22, orderNumber := "VEC-22" }]

/-- User store for the C9 counterexample. -/
def bulkUsersDb : List User := [⟨7, "employee", some "vector", []⟩]

/-- C9 counterexample: bulk-assigning orders 20, 21, 22 to employee 7 hits
the legacy order 21, whose save throws.  The route answers 500 with no
assigned count, order 20 (processed before the failure) keeps the new
assignment, and order 22 is never processed — refuting "continues processing
the remaining orders and responds with the count of orders assigned". -/
theorem bulk_assign_counterexample :
    (matchedOrders bulkOrdersDb [20, 21, 22]).length = 3
    ∧ (bulkAssign adminActor bulkOrdersDb bulkUsersDb [20, 21, 22] 7).statusCode = 500
    ∧ (bulkAssign adminActor bulkOrdersDb bulkUsersDb [20, 21, 22] 7).assignedCount = none
    ∧ ((bulkAssign adminActor bulkOrdersDb bulkUsersDb [20, 21, 22] 7).orders.find?
        (fun o => o.oid == 20)).map (fun o => o.assignedTo) = some (some 7)
    ∧ ((bulkAssign adminActor bulkOrdersDb bulkUsersDb [20, 21, 22] 7).orders.find?
        (fun o => o.oid == 22)).map (fun o => o.assignedTo) = some none := by
  decide

/-- Witness for the amended C9 theorem: a batch whose saves all succeed ends
with 200 and the full count. -/
theorem bulk_assign_amended_witness :
    adminActor.role = "admin"
    ∧ ([20, 22] : List Nat).isEmpty = false
    ∧ validEmployeeTarget bulkUsersDb 7 = true
    ∧ (matchedOrders [{ sampleOrder with oid := 20 }, { sampleOrder with oid := 22 }]
        [20, 22]).isEmpty = false
    ∧ (bulkAssign adminActor [{ sampleOrder with oid := 20 }, { sampleOrder with oid := 22 }]
        bulkUsersDb [20, 22] 7).statusCode = 200
    ∧ (bulkAssign adminActor [{ sampleOrder with oid := 20 }, { sampleOrder with oid := 22 }]
        bulkUsersDb [20, 22] 7).assignedCount = some 2 := by
  have h := bulk_assign_amended adminActor
    [{ sampleOrder with oid := 20 }, { sampleOrder with oid := 22 }] bulkUsersDb [20, 22] 7
    rfl rfl (by decide) (by decide)
  rw [if_pos (by decide)] at h
  refine ⟨rfl, rfl, by decide, by decide, h.1, ?_⟩
  rw [h.2.1]
  decide

/-! ## C7 — payment capture is verified against the provider -/

/-- The pay loop runs to completion exactly when every linked order passes
save validation with `invoiceStatus = "paid"` applied. -/
theorem markPaidLoop_ok (db l : List Order) :
    (markPaidLoop db l).2 =
      l.all (fun o => orderSaveOk { o with invoiceStatus := "paid" }) := by
  induction l generalizing db with
  | nil => rfl
  | cons o rest ih =>
    simp only [markPaidLoop, List.all_cons]
    by_cases h : orderSaveOk { o with invoiceStatus := "paid" } = true
    · simp [h, ih]
    · simp [h]

/-- C7: the invoice is marked paid (with payment details recorded) exactly
when the re-queried provider order is `COMPLETED`; any other provider status
yields 400 with the invoice unchanged and no order touched.  In the
`COMPLETED` case the response is 200 when every linked order's save succeeds,
and 500 (the invoice already persisted paid) when one fails.  The handler
reads only the transaction id from the request, so a client-asserted success
carries no weight. -/
theorem pay_invoice_verified (actor : Actor) (invoices : List Invoice) (orders : List Order)
    (provider : String → Option ProviderOrder) (invoiceId : Nat) (transactionId : String)
    (now : Nat) (inv : Invoice) (po : ProviderOrder)
    (hrole : actor.role = "customer")
    (hfind : invoices.find? (fun i => i.invId == invoiceId) = some inv)
    (hpo : provider transactionId = some po) :
    if po.status = "COMPLETED" then
      (payInvoice actor invoices orders provider invoiceId transactionId now).invoice =
          some { inv with
            paymentStatus := "paid"
            paymentDetails := some
              { transactionId := po.resultId
                payerId := po.payerId
                payerEmail := po.payerEmail
                paidAt := now
                paymentMethod := "PayPal" } }
      ∧ (if (populatedOrders orders inv.orders).all
            (fun o => orderSaveOk { o with invoiceStatus := "paid" }) then
          (payInvoice actor invoices orders provider invoiceId transactionId now).statusCode
            = 200
        else
          (payInvoice actor invoices orders provider invoiceId transactionId now).statusCode
            = 500)
    else
      payInvoice actor invoices orders provider invoiceId transactionId now =
        { statusCode := 400, invoice := some inv, orders := orders } := by
  by_cases h : po.status = "COMPLETED"
  · rw [if_pos h]
    have hok := markPaidLoop_ok orders (populatedOrders orders inv.orders)
    rcases hloop : markPaidLoop orders (populatedOrders orders inv.orders) with ⟨db1, ok1⟩
    rw [hloop] at hok
    have hok1 : ok1 = (populatedOrders orders inv.orders).all
        (fun o => orderSaveOk { o with invoiceStatus := "paid" }) := hok
    have hgoal : payInvoice actor invoices orders provider invoiceId transactionId now =
        { statusCode := if ok1 then 200 else 500
          invoice := some { inv with
            paymentStatus := "paid"
            paymentDetails := some
              { transactionId := po.resultId
                payerId := po.payerId
                payerEmail := po.payerEmail
                paidAt := now
                paymentMethod := "PayPal" } }
          orders := db1 } := by
      simp [payInvoice, hrole, hfind, hpo, h, hloop]
    rw [hgoal]
    refine ⟨rfl, ?_⟩
    rw [← hok1]
    cases ok1 <;> simp
  · rw [if_neg h]
    simp [payInvoice, hrole, hfind, hpo, h]

/-- Invoice for the C7 witness. -/
def sampleInvoice : Invoice :=
  { invId := 30
    customerId := 5
    orders := [10]
    items := [⟨"Logo (AI)", 1, 50⟩]
    subtotal := 50
    tax := 5
    total := 55
    notes := ""
    currency := "USD"
    orderTotal := 50
    generatedByAdmin := true
    paymentStatus := "unpaid"
    paymentDetails := none }

/-- Provider oracle for the C7 witness: transaction TX1 is COMPLETED,
transaction TX2 is still CREATED, everything else is unknown. -/
def sampleProvider : String → Option ProviderOrder := fun t =>
  if t = "TX1" then some ⟨"TX1", "COMPLETED", "PAYER1", "payer@mail.test"⟩
  else if t = "TX2" then some ⟨"TX2", "CREATED", "PAYER1", "payer@mail.test"⟩
  else none

/-- Witness for C7: a COMPLETED transaction marks the concrete invoice paid
with a 200 (its one linked order saves fine), and (same theorem at TX2) a
non-COMPLETED transaction leaves it unpaid with a 400. -/
theorem pay_invoice_verified_witness :
    (Actor.mk 5 "customer").role = "customer"
    ∧ [sampleInvoice].find? (fun i => i.invId == 30) = some sampleInvoice
    ∧ sampleProvider "TX1" = some ⟨"TX1", "COMPLETED", "PAYER1", "payer@mail.test"⟩
    ∧ sampleProvider "TX2" = some ⟨"TX2", "CREATED", "PAYER1", "payer@mail.test"⟩
    ∧ (payInvoice (Actor.mk 5 "customer") [sampleInvoice] [sampleOrder] sampleProvider 30
        "TX1" 999).invoice =
        some { sampleInvoice with
          paymentStatus := "paid"
          paymentDetails := some ⟨"TX1", "PAYER1", "payer@mail.test", 999, "PayPal"⟩ }
    ∧ (payInvoice (Actor.mk 5 "customer") [sampleInvoice] [sampleOrder] sampleProvider 30
        "TX1" 999).statusCode = 200
    ∧ payInvoice (Actor.mk 5 "customer") [sampleInvoice] [sampleOrder] sampleProvider 30
        "TX2" 999 =
        { statusCode := 400, invoice := some sampleInvoice, orders := [sampleOrder] } := by
  have h1 := pay_invoice_verified (Actor.mk 5 "customer") [sampleInvoice] [sampleOrder]
    sampleProvider 30 "TX1" 999 sampleInvoice ⟨"TX1", "COMPLETED", "PAYER1", "payer@mail.test"⟩
    rfl (by decide) (by decide)
  have h2 := pay_invoice_verified (Actor.mk 5 "customer") [sampleInvoice] [sampleOrder]
    sampleProvider 30 "TX2" 999 sampleInvoice ⟨"TX2", "CREATED", "PAYER1", "payer@mail.test"⟩
    rfl (by decide) (by decide)
  rw [if_pos (by decide)] at h1
  rw [if_neg (by decide)] at h2
  have h12 := h1.2
  rw [if_pos (by decide)] at h12
  exact ⟨rfl, by decide, by decide, by decide, h1.1, h12, h2⟩

/-! ## C8 — consolidated invoice creation validates a single customer -/

/-- The linkage loop runs to completion exactly when every matched order
passes save validation with the invoice linkage applied. -/
theorem linkOrdersLoop_ok (invId : Nat) (db l : List Order) :
    (linkOrdersLoop invId db l).2 =
      l.all (fun o => orderSaveOk
        { o with invoiceId := some invId, hasInvoice := true, invoiceStatus := "pending" }) := by
  induction l generalizing db with
  | nil => rfl
  | cons o rest ih =>
    simp only [linkOrdersLoop, List.all_cons]
    by_cases h : orderSaveOk
        { o with invoiceId := some invId, hasInvoice := true, invoiceStatus := "pending" } = true
    · simp [h, ih]
    · simp [h]

/-- A completed linkage loop preserves "every stored order with this id is
linked to the invoice". -/
theorem linkOrdersLoop_preserves (invId oid : Nat) (db l : List Order)
    (hok : (linkOrdersLoop invId db l).2 = true)
    (hP : ∀ x ∈ db, x.oid = oid →
      x.invoiceId = some invId ∧ x.hasInvoice = true ∧ x.invoiceStatus = "pending") :
    ∀ x ∈ (linkOrdersLoop invId db l).1, x.oid = oid →
      x.invoiceId = some invId ∧ x.hasInvoice = true ∧ x.invoiceStatus = "pending" := by
  induction l generalizing db with
  | nil => exact hP
  | cons o rest ih =>
    by_cases h : orderSaveOk
        { o with invoiceId := some invId, hasInvoice := true, invoiceStatus := "pending" } = true
    · have hstep : linkOrdersLoop invId db (o :: rest) =
        linkOrdersLoop invId
          (db.map (fun x => if x.oid = o.oid then
            { o with invoiceId := some invId, hasInvoice := true, invoiceStatus := "pending" }
           else x)) rest := by
        simp [linkOrdersLoop, h]
      rw [hstep] at hok ⊢
      apply ih _ hok
      intro x hx hxoid
      rcases List.mem_map.1 hx with ⟨x0, hx0, rfl⟩
      by_cases hxo : x0.oid = o.oid
      · simp [hxo]
      · rw [if_neg hxo] at hxoid ⊢
        exact hP x0 hx0 hxoid
    · exfalso
      have hfail : (linkOrdersLoop invId db (o :: rest)).2 = false := by
        simp [linkOrdersLoop, h]
      rw [hok] at hfail
      exact Bool.noConfusion hfail

/-- After a completed linkage loop over a list containing an order with this
id, every stored order with this id is linked to the invoice. -/
theorem linkOrdersLoop_establishes (invId oid : Nat) (db l : List Order)
    (hok : (linkOrdersLoop invId db l).2 = true)
    (hmem : ∃ o ∈ l, o.oid = oid) :
    ∀ x ∈ (linkOrdersLoop invId db l).1, x.oid = oid →
      x.invoiceId = some invId ∧ x.hasInvoice = true ∧ x.invoiceStatus = "pending" := by
  induction l generalizing db with
  | nil =>
    rcases hmem with ⟨o, ho, _⟩
    cases ho
  | cons o rest ih =>
    by_cases h : orderSaveOk
        { o with invoiceId := some invId, hasInvoice := true, invoiceStatus := "pending" } = true
    · have hstep : linkOrdersLoop invId db (o :: rest) =
        linkOrdersLoop invId
          (db.map (fun x => if x.oid = o.oid then
            { o with invoiceId := some invId, hasInvoice := true, invoiceStatus := "pending" }
           else x)) rest := by
        simp [linkOrdersLoop, h]
      rw [hstep] at hok ⊢
      rcases hmem with ⟨o', ho', hoid⟩
      rcases List.mem_cons.1 ho' with rfl | hrest
      · apply linkOrdersLoop_preserves invId oid _ rest hok
        intro x hx hxoid
        rcases List.mem_map.1 hx with ⟨x0, hx0, rfl⟩
        by_cases hxo : x0.oid = o'.oid
        · simp [hxo]
        · rw [if_neg hxo] at hxoid
          exact absurd (hxoid.trans hoid.symm) hxo
      · exact ih _ hok ⟨o', hrest, hoid⟩
    · exfalso
      have hfail : (linkOrdersLoop invId db (o :: rest)).2 = false := by
        simp [linkOrdersLoop, h]
      rw [hok] at hfail
      exact Bool.noConfusion hfail

/-- C8: `POST /create` on the consolidated invoice router.  Orders of mixed
customers yield a 400 with no invoice and no order mutated; a single-customer
batch whose per-order saves all succeed yields a 201 invoice and every
referenced order is linked to it (`invoiceId` / `hasInvoice` /
`invoiceStatus = "pending"`). -/
theorem create_consolidated_invoice_spec (actor : Actor) (orders : List Order)
    (users : List User) (orderIds : List Nat) (items : List Item)
    (subtotal tax total : Nat) (notes currency : Option String) (newInvoiceId : Nat)
    (first : Order) (customer : User)
    (hadmin : actor.role = "admin")
    (hne : orderIds.isEmpty = false)
    (hlen : (matchedOrders orders orderIds).length = orderIds.length)
    (hhead : (matchedOrders orders orderIds).head? = some first)
    (hcust : findUser users first.customerId = some customer)
    (hsaves : ∀ o ∈ matchedOrders orders orderIds,
      orderSaveOk { o with invoiceId := some newInvoiceId, hasInvoice := true
                           invoiceStatus := "pending" } = true) :
    if allSameCustomer (matchedOrders orders orderIds) then
      (createConsolidatedInvoice actor orders users orderIds items subtotal tax total
          notes currency newInvoiceId).statusCode = 201
      ∧ (∃ i, (createConsolidatedInvoice actor orders users orderIds items subtotal tax total
            notes currency newInvoiceId).invoice = some i
          ∧ i.invId = newInvoiceId
          ∧ i.customerId = customer.uid
          ∧ i.orders = (matchedOrders orders orderIds).map (fun o => o.oid))
      ∧ ∀ x ∈ (createConsolidatedInvoice actor orders users orderIds items subtotal tax total
            notes currency newInvoiceId).orders,
          (∃ o ∈ matchedOrders orders orderIds, o.oid = x.oid) →
            x.invoiceId = some newInvoiceId ∧ x.hasInvoice = true ∧ x.invoiceStatus = "pending"
    else
      createConsolidatedInvoice actor orders users orderIds items subtotal tax total
          notes currency newInvoiceId =
        { statusCode := 400, invoice := none, orders := orders } := by
  by_cases hsame : allSameCustomer (matchedOrders orders orderIds) = true
  · rw [if_pos hsame]
    have hall : (matchedOrders orders orderIds).all
        (fun o => orderSaveOk { o with invoiceId := some newInvoiceId, hasInvoice := true
                                       invoiceStatus := "pending" }) = true := by
      rw [List.all_eq_true]
      exact hsaves
    have hok := linkOrdersLoop_ok newInvoiceId orders (matchedOrders orders orderIds)
    rw [hall] at hok
    rcases hloop : linkOrdersLoop newInvoiceId orders (matchedOrders orders orderIds)
      with ⟨db1, ok1⟩
    rw [hloop] at hok
    have hok1 : ok1 = true := hok
    have hgoal : createConsolidatedInvoice actor orders users orderIds items subtotal tax total
        notes currency newInvoiceId =
        { statusCode := 201
          invoice := some
            { invId := newInvoiceId
              customerId := customer.uid
              orders := (matchedOrders orders orderIds).map (fun o => o.oid)
              items := items
              subtotal := subtotal
              tax := tax
              total := total
              notes := notes.getD ""
              currency := jsOrStr currency "USD"
              orderTotal := ((matchedOrders orders orderIds).map (fun o => o.totalAmount)).sum
              generatedByAdmin := true
              paymentStatus := "unpaid"
              paymentDetails := none }
          orders := db1 } := by
      simp [createConsolidatedInvoice, hadmin, hne, hlen, hsame, hhead, hcust, hloop, hok1]
    rw [hgoal]
    refine ⟨rfl, ⟨_, rfl, rfl, rfl, rfl⟩, ?_⟩
    intro x hx hex
    have := linkOrdersLoop_establishes newInvoiceId x.oid orders
      (matchedOrders orders orderIds) (by rw [hloop]; exact hok1) hex
    rw [hloop] at this
    exact this x hx rfl
  · rw [if_neg hsame]
    have hsame' : allSameCustomer (matchedOrders orders orderIds) = false :=
      Bool.eq_false_iff.2 hsame
    simp [createConsolidatedInvoice, hadmin, hne, hlen, hsame']

/-- Orders of the same customer for the C8 witness. -/
def invoiceOrdersDb : List Order :=
  [{ sampleOrder with oid := 40, orderNumber := "VEC-40" },
   { sampleOrder with oid := 41, orderNumber := "VEC-41" }]

/-- Users for the C8 witness. -/
def invoiceUsersDb : List User := [⟨5, "customer", none, []⟩]

/-- Witness for C8: a two-order single-customer batch (both orders passing
save validation) produces a 201 invoice and links both orders. -/
theorem create_consolidated_invoice_spec_witness :
    adminActor.role = "admin"
    ∧ ([40, 41] : List Nat).isEmpty = false
    ∧ (matchedOrders invoiceOrdersDb [40, 41]).length = ([40, 41] : List Nat).length
    ∧ (matchedOrders invoiceOrdersDb [40, 41]).head? =
        some { sampleOrder with oid := 40, orderNumber := "VEC-40" }
    ∧ findUser invoiceUsersDb 5 = some ⟨5, "customer", none, []⟩
    ∧ (∀ o ∈ matchedOrders invoiceOrdersDb [40, 41],
        orderSaveOk { o with invoiceId := some 77, hasInvoice := true
                             invoiceStatus := "pending" } = true)
    ∧ (createConsolidatedInvoice adminActor invoiceOrdersDb invoiceUsersDb [40, 41]
        [⟨"Two vectors", 2, 50⟩] 100 10 110 none none 77).statusCode = 201 := by
  have h := create_consolidated_invoice_spec adminActor invoiceOrdersDb invoiceUsersDb
    [40, 41] [⟨"Two vectors", 2, 50⟩] 100 10 110 none none 77
    { sampleOrder with oid := 40, orderNumber := "VEC-40" } ⟨5, "customer", none, []⟩
    rfl rfl (by decide) (by decide) (by decide) (by decide)
  rw [if_pos (by decide)] at h
  exact ⟨rfl, rfl, by decide, by decide, by decide, by decide, h.1⟩

/-! ## C10 — the PDF route is not authorization-guarded (DELETE is) -/

/-- C10 counterexample: actor 99 is neither an admin nor the owner nor the
assigned employee of `sampleOrder`, yet `GET /:id/pdf` serves the PDF with
status 200, not 403. -/
theorem pdf_download_counterexample :
    sampleOrder.customerId ≠ 99
    ∧ sampleOrder.assignedTo ≠ some 99
    ∧ (Actor.mk 99 "customer").role ≠ "admin"
    ∧ pdfDownload (Actor.mk 99 "customer") (some sampleOrder) = 200
    ∧ (200 : Nat) ≠ 403 := by
  decide

/-- C10 (amended): `DELETE /:id` answers 403 and leaves both stores untouched
for an actor who is neither an admin nor the owning customer, while
`GET /:id/pdf` performs no role or ownership check at all and serves the PDF
(200) to any authenticated actor. -/
theorem delete_forbidden_pdf_unguarded (actor : Actor) (orders : List Order)
    (users : List User) (orderId : Nat) (o : Order)
    (hfind : orders.find? (fun x => x.oid == orderId) = some o)
    (hrole : actor.role ≠ "admin") (hown : o.customerId ≠ actor.uid) :
    deleteOrder actor orders users orderId =
      { statusCode := 403, orders := orders, users := users }
    ∧ pdfDownload actor (some o) = 200 := by
  simp only [deleteOrder, hfind]
  rw [if_pos ⟨hrole, hown⟩]
  exact ⟨rfl, rfl⟩

/-- Witness for the amended C10 theorem at a concrete unrelated customer. -/
theorem delete_forbidden_pdf_unguarded_witness :
    [sampleOrder].find? (fun x => x.oid == 10) = some sampleOrder
    ∧ (Actor.mk 99 "customer").role ≠ "admin"
    ∧ sampleOrder.customerId ≠ (Actor.mk 99 "customer").uid
    ∧ deleteOrder (Actor.mk 99 "customer") [sampleOrder] assignUsersDb 10 =
        { statusCode := 403, orders := [sampleOrder], users := assignUsersDb }
    ∧ pdfDownload (Actor.mk 99 "customer") (some sampleOrder) = 200 := by
  have h := delete_forbidden_pdf_unguarded (Actor.mk 99 "customer") [sampleOrder]
    assignUsersDb 10 sampleOrder (by decide) (by decide) (by decide)
  exact ⟨by decide, by decide, by decide, h.1, h.2⟩

end Swissy
